import Mathlib

/-!
Verification development for the `chat-bot` error-normalization layer.

The Python sources embedded here are:
* `src/ext/errors/base_errors.py` — the authoritative error module
  (`_flatten_error_dict`, `HTTPException.__init__`, `RateLimited`, the
  exception class hierarchy);
* `src/errors.py` — an older duplicate of the same module (its
  `_flatten_error_dict` is embedded in namespace `ErrorsPy`).

JSON-decoded Python values are modelled by the inductive `Json`
(JSON object keys are strings; JSON numbers that occur in error bodies
are integers).  Python exceptions raised while the translator runs are
modelled with `Except PyErr`.
-/

/-- A JSON-like Python value (the payloads handed to the error translator). -/
inductive Json where
  | str (s : String)
  | num (n : Int)
  | bool (b : Bool)
  | null
  | arr (elems : List Json)
  | obj (fields : List (String × Json))
deriving Repr

/-- Python exceptions that the embedded code can raise. -/
inductive PyErr where
  | attributeError
  | typeError
  | keyError
deriving Repr, DecidableEq

/-- Python truthiness (`bool(v)`) for `Json` values. -/
def pyTruthy : Json → Bool
  | Json.str s => s ≠ ""
  | Json.num n => n ≠ 0
  | Json.bool b => b
  | Json.null => false
  | Json.arr xs => !xs.isEmpty
  | Json.obj fs => !fs.isEmpty

/-- Python `d.get(k)` / `d[k]` lookup on a dict: first matching key
(Python dicts have unique keys, so first = only). -/
def pyLookup : List (String × Json) → String → Option Json
  | [], _ => none
  | (k, v) :: rest, query => if k = query then some v else pyLookup rest query

/-- One assignment step `d[k] = v` of Python `dict` construction: an existing
key keeps its position and takes the new value, a fresh key is appended. -/
def pyDictInsert (acc : List (String × Json)) (k : String) (v : Json) :
    List (String × Json) :=
  if acc.any (fun p => p.1 = k) then
    acc.map (fun p => if p.1 = k then (p.1, v) else p)
  else
    acc ++ [(k, v)]

/-- Python `dict(items)`: insert the pairs in order; the resulting item
order is first-insertion order and values are the last assigned. -/
def pyDict (items : List (String × Json)) : List (String × Json) :=
  items.foldl (fun acc p => pyDictInsert acc p.1 p.2) []

/-- Python `len(v)`: defined for strings, lists and dicts; `TypeError`
otherwise (e.g. `len(5)`). -/
def pyLen : Json → Except PyErr Nat
  | Json.str s => Except.ok s.length
  | Json.arr xs => Except.ok xs.length
  | Json.obj fs => Except.ok fs.length
  | _ => Except.error PyErr.typeError

/-- Python `repr(v)` for `Json` values.  Modelling note: string escaping
inside `repr` of containers is simplified to plain quoting; no theorem
below depends on the repr of a container. -/
def pyRepr : Json → String
  | Json.str s => "\x27" ++ s ++ "\x27"
  | Json.num n => toString n
  | Json.bool true => "True"
  | Json.bool false => "False"
  | Json.null => "None"
  | Json.arr xs => "[" ++ String.intercalate ", " (xs.attach.map (fun x => pyRepr x.1)) ++ "]"
  | Json.obj fs =>
      "\x7b" ++
        String.intercalate ", "
          (fs.attach.map (fun p => "\x27" ++ p.1.1 ++ "\x27: " ++ pyRepr p.1.2)) ++
      "\x7d"
decreasing_by
  · have := List.sizeOf_lt_of_mem x.2
    simp at this ⊢
    omega
  · obtain ⟨⟨a, b⟩, hp⟩ := p
    have := List.sizeOf_lt_of_mem hp
    simp at this ⊢
    omega

/-- Python `str(v)`: identity on strings, `repr` otherwise (for ints,
bools, `None`, lists and dicts `str` and `repr` agree). -/
def pyStr : Json → String
  | Json.str s => s
  | v => pyRepr v

/-- `mapM` for `Except`, written by explicit recursion so that its
equations unfold during proofs; the first error wins, as for a Python
generator consumed left to right. -/
def mapME {α : Type} (f : Json → Except PyErr α) : List Json → Except PyErr (List α)
  | [] => Except.ok []
  | x :: xs =>
    match f x with
    | Except.error e => Except.error e
    | Except.ok b =>
      match mapME f xs with
      | Except.error e => Except.error e
      | Except.ok bs => Except.ok (b :: bs)

/-- The expression `x.get('message', '')` from `_flatten_error_dict`
(base_errors.py line 67): a dict yields its `message` field (default the
empty string); any non-dict raises `AttributeError` (no `.get`). -/
def pyGetMessage : Json → Except PyErr Json
  | Json.obj xf => Except.ok ((pyLookup xf "message").getD (Json.str ""))
  | _ => Except.error PyErr.attributeError

/-- The check `str.join` performs on each joined element: it must be a
Python `str`, otherwise `TypeError`. -/
def asPyString : Json → Except PyErr String
  | Json.str s => Except.ok s
  | _ => Except.error PyErr.typeError

/-- The expression `' '.join(x.get('message', '') for x in _errors)` from
`_flatten_error_dict` (base_errors.py line 67).  The generator is consumed
first (raising `AttributeError` for an element without `.get`), then
`join` checks each item is a string.  Iterating a non-empty string or dict
yields strings, which lack `.get`; non-iterables raise `TypeError`. -/
def joinMessages : Json → Except PyErr String
  | Json.arr xs =>
    match mapME pyGetMessage xs with
    | Except.error e => Except.error e
    | Except.ok vals =>
      match mapME asPyString vals with
      | Except.error e => Except.error e
      | Except.ok strs => Except.ok (String.intercalate " " strs)
  | Json.str s => if s = "" then Except.ok "" else Except.error PyErr.attributeError
  | Json.obj fs =>
    match fs with
    | [] => Except.ok ""
    | _ :: _ => Except.error PyErr.attributeError
  | _ => Except.error PyErr.typeError

/-- The expression `key + '.' + k if key else k` from `_flatten_error_dict`
(base_errors.py line 57). -/
def new_key (key k : String) : String :=
  if key = "" then k else key ++ "." ++ k

/-- The loop of `_flatten_error_dict` (base_errors.py lines 56-70),
building the `items` list: a dict value with an `_errors` key becomes one
joined entry, a dict value without it is flattened recursively (and the
recursive result, already a dict, is extended onto `items`), any other
value is appended unchanged. -/
def flattenItems (l : List (String × Json)) (key : String) :
    Except PyErr (List (String × Json)) :=
  match l with
  | [] => Except.ok []
  | (k, v) :: rest =>
    match v with
    | Json.obj vf =>
      match pyLookup vf "_errors" with
      | some e =>
        match joinMessages e with
        | Except.error er => Except.error er
        | Except.ok s =>
          match flattenItems rest key with
          | Except.error er => Except.error er
          | Except.ok tail => Except.ok ((new_key key k, Json.str s) :: tail)
      | none =>
        match flattenItems vf (new_key key k) with
        | Except.error er => Except.error er
        | Except.ok sub =>
          match flattenItems rest key with
          | Except.error er => Except.error er
          | Except.ok tail => Except.ok (pyDict sub ++ tail)
    | _ =>
      match flattenItems rest key with
      | Except.error er => Except.error er
      | Except.ok tail => Except.ok ((new_key key k, v) :: tail)
termination_by sizeOf l
decreasing_by
  all_goals simp
  all_goals omega

/-- `_flatten_error_dict(d, key)` from base_errors.py lines 53-72: run the
loop, then return `dict(items)`.  The argument is the entry list of the
Python dict `d`. -/
def flatten_error_dict (d : List (String × Json)) (key : String) :
    Except PyErr (List (String × Json)) :=
  match flattenItems d key with
  | Except.error e => Except.error e
  | Except.ok items => Except.ok (pyDict items)

/-- A response object as probed by `HTTPException.__init__`: an attribute
modelled as `none` is absent from the object (Python raises
`AttributeError` when it is read), `some n` is a present integer.
`reason` is present on both client libraries. -/
structure Response where
  status_code : Option Int
  status : Option Int
  reason : String

/-- The attributes `HTTPException.__init__` stores, together with the
string passed to `super().__init__` (the exception's message).  `code`
and `text` hold whatever Python value the constructor assigned, with no
coercion. -/
structure TranslatedError where
  status : Int
  code : Json
  text : Json
  args : String

/-- Lines 97-105 of base_errors.py: `if response.status_code: ...
elif response.status: ... else: 0`.  Reading a missing attribute raises
`AttributeError`; a present falsy value falls through to the next test. -/
def extractStatus (r : Response) : Except PyErr Int :=
  match r.status_code with
  | none => Except.error PyErr.attributeError
  | some sc =>
    if sc ≠ 0 then Except.ok sc
    else
      match r.status with
      | none => Except.error PyErr.attributeError
      | some s => if s ≠ 0 then Except.ok s else Except.ok 0

/-- Lines 109-127 of base_errors.py: compute `self.code` and `self.text`
from the `message` argument.  A dict message reads `code`/`message`/
`errors` with `.get`; truthy `errors` are flattened (raising
`AttributeError` when `errors` has no `.items()`), joined into the
`In path: msg` lines, and appended to the base message (`TypeError` when
the base is not a string).  A non-dict message becomes the text itself
(`message or ''`) with code `0`. -/
def computeCodeText (message : Option Json) : Except PyErr (Json × Json) :=
  match message with
  | some (Json.obj mf) =>
    let code := (pyLookup mf "code").getD (Json.num 0)
    let base := (pyLookup mf "message").getD (Json.str "")
    let errors := (pyLookup mf "errors").getD Json.null
    if pyTruthy errors then
      match errors with
      | Json.obj ef =>
        match flatten_error_dict ef "" with
        | Except.error e => Except.error e
        | Except.ok flat =>
          match base with
          | Json.str b =>
            Except.ok (code,
              Json.str (b ++ "\n" ++
                String.intercalate "\n"
                  (flat.map (fun p => "In " ++ p.1 ++ ": " ++ pyStr p.2))))
          | _ => Except.error PyErr.typeError
      | _ => Except.error PyErr.attributeError
    else
      Except.ok (code, base)
  | some m => Except.ok (Json.num 0, if pyTruthy m then m else Json.str "")
  | none => Except.ok (Json.num 0, Json.str "")

/-- `HTTPException.__init__` from base_errors.py lines 96-134: extract the
status, compute code and text, then build the exception message
`'{0.status_code} {0.reason} (error code: {1})'` with `': {2}'` appended
when `len(self.text)` is non-zero (`len` itself raises `TypeError` on a
non-sized text). -/
def HTTPException_init (r : Response) (message : Option Json) :
    Except PyErr TranslatedError :=
  match extractStatus r with
  | Except.error e => Except.error e
  | Except.ok status =>
    match computeCodeText message with
    | Except.error e => Except.error e
    | Except.ok (code, text) =>
      match pyLen text with
      | Except.error e => Except.error e
      | Except.ok n =>
        match r.status_code with
        | none => Except.error PyErr.attributeError
        | some sc =>
          Except.ok
            { status := status
              code := code
              text := text
              args :=
                toString sc ++ " " ++ r.reason ++ " (error code: " ++ pyStr code ++ ")" ++
                  (if n ≠ 0 then ": " ++ pyStr text else "") }

/-- Rounding to the nearest integer, ties to even — the rounding Python's
fixed-point float formatting applies. -/
def roundHalfEven (q : Rat) : Int :=
  let f := ⌊q⌋
  let r := q - f
  if r < 1 / 2 then f
  else if 1 / 2 < r then f + 1
  else if f % 2 = 0 then f else f + 1

/-- The format specifier `:.2f` on a non-negative-or-negative value,
modelled on rationals: two decimal digits, correctly rounded.  Modelling
note: `retry_after` is a Python float; values such as `1.5` are exactly
representable, for which this rational model agrees with CPython. -/
def formatFixed2 (q : Rat) : String :=
  let n := roundHalfEven (q * 100)
  let sign := if n < 0 then "-" else ""
  let m := n.natAbs
  let frac := m % 100
  sign ++ toString (m / 100) ++ "." ++ (if frac < 10 then "0" else "") ++ toString frac

/-- The state of a `RateLimited` exception: `RateLimited.__init__`
(base_errors.py lines 154-156) stores `retry_after` and passes
`f'Too many requests. Retry in {retry_after:.2f}'` to
`super().__init__`. -/
structure RateLimitedState where
  retry_after : Rat
  args : String

/-- `RateLimited.__init__` from base_errors.py lines 154-156; the only
constructor argument is `retry_after`. -/
def RateLimited_init (retry_after : Rat) : RateLimitedState :=
  { retry_after := retry_after
    args := "Too many requests. Retry in " ++ formatFixed2 retry_after }

/-- The instance attributes `RateLimited.__init__` assigns (the single
statement `self.retry_after = retry_after` on line 155). -/
def rateLimitedAttrs : List String := ["retry_after"]

/-- The exception classes declared in base_errors.py, plus Python's
built-in `Exception` root. -/
inductive ExcClass where
  | exception
  | chatBotException
  | clientException
  | gatewayNotFound
  | httpException
  | rateLimited
  | forbidden
  | serverError
  | invalidData
  | loginFailure
  | connectionClose
deriving Repr, DecidableEq

/-- The ancestor chain (method resolution order) of each class, read off
the `class C(Base):` headers of base_errors.py. -/
def ancestors : ExcClass → List ExcClass
  | ExcClass.exception => [ExcClass.exception]
  | ExcClass.chatBotException => [ExcClass.chatBotException, ExcClass.exception]
  | ExcClass.clientException =>
      [ExcClass.clientException, ExcClass.chatBotException, ExcClass.exception]
  | ExcClass.gatewayNotFound =>
      [ExcClass.gatewayNotFound, ExcClass.chatBotException, ExcClass.exception]
  | ExcClass.httpException =>
      [ExcClass.httpException, ExcClass.chatBotException, ExcClass.exception]
  | ExcClass.rateLimited =>
      [ExcClass.rateLimited, ExcClass.chatBotException, ExcClass.exception]
  | ExcClass.forbidden =>
      [ExcClass.forbidden, ExcClass.httpException, ExcClass.chatBotException,
        ExcClass.exception]
  | ExcClass.serverError =>
      [ExcClass.serverError, ExcClass.httpException, ExcClass.chatBotException,
        ExcClass.exception]
  | ExcClass.invalidData =>
      [ExcClass.invalidData, ExcClass.clientException, ExcClass.chatBotException,
        ExcClass.exception]
  | ExcClass.loginFailure =>
      [ExcClass.loginFailure, ExcClass.clientException, ExcClass.chatBotException,
        ExcClass.exception]
  | ExcClass.connectionClose =>
      [ExcClass.connectionClose, ExcClass.clientException, ExcClass.chatBotException,
        ExcClass.exception]

/-- Python `issubclass(c, d)`. -/
def isSubclassOf (c d : ExcClass) : Bool :=
  (ancestors c).contains d

namespace ErrorsPy

/-- The expression `x.get('message', '')` from `_flatten_error_dict` in
src/errors.py line 57 (the older duplicate of the module). -/
def pyGetMessage : Json → Except PyErr Json
  | Json.obj xf => Except.ok ((pyLookup xf "message").getD (Json.str ""))
  | _ => Except.error PyErr.attributeError

/-- The expression `' '.join(x.get('message', '') for x in _errors)` from
`_flatten_error_dict` in src/errors.py line 57. -/
def joinMessages : Json → Except PyErr String
  | Json.arr xs =>
    match mapME ErrorsPy.pyGetMessage xs with
    | Except.error e => Except.error e
    | Except.ok vals =>
      match mapME asPyString vals with
      | Except.error e => Except.error e
      | Except.ok strs => Except.ok (String.intercalate " " strs)
  | Json.str s => if s = "" then Except.ok "" else Except.error PyErr.attributeError
  | Json.obj fs =>
    match fs with
    | [] => Except.ok ""
    | _ :: _ => Except.error PyErr.attributeError
  | _ => Except.error PyErr.typeError

/-- The loop of `_flatten_error_dict` from src/errors.py lines 46-60. -/
def flattenItems (l : List (String × Json)) (key : String) :
    Except PyErr (List (String × Json)) :=
  match l with
  | [] => Except.ok []
  | (k, v) :: rest =>
    match v with
    | Json.obj vf =>
      match pyLookup vf "_errors" with
      | some e =>
        match ErrorsPy.joinMessages e with
        | Except.error er => Except.error er
        | Except.ok s =>
          match ErrorsPy.flattenItems rest key with
          | Except.error er => Except.error er
          | Except.ok tail => Except.ok ((new_key key k, Json.str s) :: tail)
      | none =>
        match ErrorsPy.flattenItems vf (new_key key k) with
        | Except.error er => Except.error er
        | Except.ok sub =>
          match ErrorsPy.flattenItems rest key with
          | Except.error er => Except.error er
          | Except.ok tail => Except.ok (pyDict sub ++ tail)
    | _ =>
      match ErrorsPy.flattenItems rest key with
      | Except.error er => Except.error er
      | Except.ok tail => Except.ok ((new_key key k, v) :: tail)
termination_by sizeOf l
decreasing_by
  all_goals simp
  all_goals omega

/-- `_flatten_error_dict(d, key)` from src/errors.py lines 43-62. -/
def flatten_error_dict (d : List (String × Json)) (key : String) :
    Except PyErr (List (String × Json)) :=
  match ErrorsPy.flattenItems d key with
  | Except.error e => Except.error e
  | Except.ok items => Except.ok (pyDict items)

end ErrorsPy

/-- Whether a `Json` value is a mapping (`isinstance(v, dict)`). -/
def Json.isObj : Json → Bool
  | Json.obj _ => true
  | _ => false

/-- A record of an `_errors` list on which `x.get('message', '')`
evaluates without error to a string: a dict whose `message` field, when
present, is a string. -/
def wellFormedRecord : Json → Bool
  | Json.obj xf =>
    match pyLookup xf "message" with
    | none => true
    | some (Json.str _) => true
    | some _ => false
  | _ => false

/-- The message the flattener reads from one `_errors` record: its
`message` field, the empty string when missing. -/
def recordMessage : Json → String
  | Json.obj xf =>
    match pyLookup xf "message" with
    | some (Json.str m) => m
    | _ => ""
  | _ => ""

/-- A record that is a dict with no `message` key at all. -/
def lacksMessage : Json → Bool
  | Json.obj xf =>
    match pyLookup xf "message" with
    | none => true
    | some _ => false
  | _ => false

/-! ### Lemmas about the Python `dict` model -/

theorem any_key_eq_false_iff (acc : List (String × Json)) (k : String) :
    (acc.any (fun p => p.1 = k)) = false ↔ k ∉ acc.map Prod.fst := by
  rw [Bool.eq_false_iff]
  apply not_congr
  rw [List.any_eq_true]
  simp [List.mem_map, eq_comm]

theorem pyDictInsert_of_fresh (acc : List (String × Json)) (k : String) (v : Json)
    (h : k ∉ acc.map Prod.fst) : pyDictInsert acc k v = acc ++ [(k, v)] := by
  have hany : (acc.any (fun p => p.1 = k)) = false := (any_key_eq_false_iff acc k).mpr h
  simp [pyDictInsert, hany]

theorem pyDict_go_keys_nodup :
    ∀ (l acc : List (String × Json)), (acc.map Prod.fst).Nodup →
      ((l.foldl (fun acc p => pyDictInsert acc p.1 p.2) acc).map Prod.fst).Nodup := by
  intro l
  induction l with
  | nil => intro acc h; simpa using h
  | cons p rest ih =>
    intro acc h
    rw [List.foldl_cons]
    apply ih
    unfold pyDictInsert
    split
    · simp only [List.map_map]
      have hmap :
          (List.map (Prod.fst ∘ fun q => if q.1 = p.1 then (q.1, p.2) else q) acc) =
            List.map Prod.fst acc := by
        apply List.map_congr_left
        intro q _
        by_cases hq : q.1 = p.1 <;> simp [hq]
      rw [hmap]
      exact h
    · rename_i hany
      have hk : p.1 ∉ acc.map Prod.fst := by
        rw [Bool.not_eq_true] at hany
        exact (any_key_eq_false_iff acc p.1).mp hany
      simp [List.nodup_append, h, hk]

theorem pyDict_go_eq :
    ∀ (l acc : List (String × Json)), ((acc ++ l).map Prod.fst).Nodup →
      l.foldl (fun acc p => pyDictInsert acc p.1 p.2) acc = acc ++ l := by
  intro l
  induction l with
  | nil => intro acc _; simp
  | cons p rest ih =>
    obtain ⟨k, v⟩ := p
    intro acc h
    rw [List.map_append, List.nodup_append] at h
    have hk : k ∉ acc.map Prod.fst := by
      intro hmem
      exact h.2.2 hmem (by simp)
    rw [List.foldl_cons]
    rw [pyDictInsert_of_fresh acc k v hk]
    have h' : (((acc ++ [(k, v)]) ++ rest).map Prod.fst).Nodup := by
      rw [List.append_assoc, List.singleton_append, List.map_append, List.nodup_append]
      exact h
    rw [ih (acc ++ [(k, v)]) h']
    rw [List.append_assoc, List.singleton_append]

theorem pyDict_keys_nodup (l : List (String × Json)) :
    ((pyDict l).map Prod.fst).Nodup := by
  unfold pyDict
  exact pyDict_go_keys_nodup l [] (by simp)

theorem pyDict_eq_self (l : List (String × Json)) (h : (l.map Prod.fst).Nodup) :
    pyDict l = l := by
  unfold pyDict
  have := pyDict_go_eq l [] (by simpa using h)
  simpa using this

theorem pyDict_idem (l : List (String × Json)) : pyDict (pyDict l) = pyDict l :=
  pyDict_eq_self (pyDict l) (pyDict_keys_nodup l)

/-! ### Lemmas about the flattener -/

theorem flattenItems_scalars :
    ∀ (d : List (String × Json)), (∀ p ∈ d, p.2.isObj = false) →
      flattenItems d "" = Except.ok d := by
  intro d
  induction d with
  | nil => intro _; simp [flattenItems]
  | cons p rest ih =>
    obtain ⟨k, v⟩ := p
    intro h
    have hv : Json.isObj v = false := h (k, v) (by simp)
    have hrest := ih (fun q hq => h q (by simp [hq]))
    cases v with
    | obj vf => simp [Json.isObj] at hv
    | str s => simp [flattenItems, hrest, new_key]
    | num n => simp [flattenItems, hrest, new_key]
    | bool b => simp [flattenItems, hrest, new_key]
    | null => simp [flattenItems, hrest, new_key]
    | arr xs => simp [flattenItems, hrest, new_key]

theorem mapME_pyGetMessage_of_wf :
    ∀ (xs : List Json), (∀ x ∈ xs, wellFormedRecord x = true) →
      mapME pyGetMessage xs = Except.ok (xs.map (fun x => Json.str (recordMessage x))) := by
  intro xs
  induction xs with
  | nil => intro _; simp [mapME]
  | cons x rest ih =>
    intro h
    have hx : wellFormedRecord x = true := h x (by simp)
    have hrest := ih (fun y hy => h y (by simp [hy]))
    have hget : pyGetMessage x = Except.ok (Json.str (recordMessage x)) := by
      cases x with
      | obj xf =>
        cases hL : pyLookup xf "message" with
        | none => simp [pyGetMessage, recordMessage, hL]
        | some m =>
          cases m with
          | str s => simp [pyGetMessage, recordMessage, hL]
          | num n => simp [wellFormedRecord, hL] at hx
          | bool b => simp [wellFormedRecord, hL] at hx
          | null => simp [wellFormedRecord, hL] at hx
          | arr l => simp [wellFormedRecord, hL] at hx
          | obj f => simp [wellFormedRecord, hL] at hx
      | str s => simp [wellFormedRecord] at hx
      | num n => simp [wellFormedRecord] at hx
      | bool b => simp [wellFormedRecord] at hx
      | null => simp [wellFormedRecord] at hx
      | arr l => simp [wellFormedRecord] at hx
    simp [mapME, hget, hrest]

theorem mapME_asPyString_of_strs (g : Json → String) :
    ∀ (xs : List Json),
      mapME asPyString (xs.map (fun x => Json.str (g x))) = Except.ok (xs.map g) := by
  intro xs
  induction xs with
  | nil => simp [mapME]
  | cons x rest ih => simp [mapME, asPyString, ih]

theorem joinMessages_of_wf (xs : List Json) (h : ∀ x ∈ xs, wellFormedRecord x = true) :
    joinMessages (Json.arr xs) =
      Except.ok (String.intercalate " " (xs.map recordMessage)) := by
  simp [joinMessages, mapME_pyGetMessage_of_wf xs h, mapME_asPyString_of_strs recordMessage xs]

theorem flatten_singleton_errors (k key : String) (vf : List (String × Json))
    (xs : List Json) (h1 : pyLookup vf "_errors" = some (Json.arr xs))
    (h2 : ∀ x ∈ xs, wellFormedRecord x = true) :
    flatten_error_dict [(k, Json.obj vf)] key =
      Except.ok [(new_key key k,
        Json.str (String.intercalate " " (xs.map recordMessage)))] := by
  simp [flatten_error_dict, flattenItems, h1, joinMessages_of_wf xs h2, pyDict, pyDictInsert]

theorem flatten_singleton_recurse (k key : String) (vf : List (String × Json))
    (h : pyLookup vf "_errors" = none) :
    flatten_error_dict [(k, Json.obj vf)] key =
      flatten_error_dict vf (new_key key k) := by
  cases hs : flattenItems vf (new_key key k) with
  | error e => simp [flatten_error_dict, flattenItems, h, hs]
  | ok sub => simp [flatten_error_dict, flattenItems, h, hs, pyDict_idem]

/-! ### The two copies of the flattener compute the same function -/

theorem pyGetMessage_eq : ErrorsPy.pyGetMessage = pyGetMessage := by
  funext x
  cases x <;> rfl

theorem joinMessages_eq (e : Json) : ErrorsPy.joinMessages e = joinMessages e := by
  cases e <;> simp [ErrorsPy.joinMessages, joinMessages, pyGetMessage_eq]

theorem flattenItems_eq_aux :
    ∀ (n : Nat) (l : List (String × Json)) (key : String), sizeOf l ≤ n →
      ErrorsPy.flattenItems l key = flattenItems l key := by
  intro n
  induction n with
  | zero =>
    intro l key h
    exfalso
    cases l <;> simp at h
  | succ n ih =>
    intro l key h
    match l with
    | [] => simp [ErrorsPy.flattenItems, flattenItems]
    | (k, v) :: rest =>
      have hrest : sizeOf rest ≤ n := by
        simp at h
        omega
      cases v with
      | obj vf =>
        have hvf : sizeOf vf ≤ n := by
          simp at h
          omega
        cases hL : pyLookup vf "_errors" with
        | some e =>
          simp [ErrorsPy.flattenItems, flattenItems, hL, joinMessages_eq,
            ih rest key hrest]
        | none =>
          simp [ErrorsPy.flattenItems, flattenItems, hL, ih vf (new_key key k) hvf,
            ih rest key hrest]
      | str s => simp [ErrorsPy.flattenItems, flattenItems, ih rest key hrest]
      | num m => simp [ErrorsPy.flattenItems, flattenItems, ih rest key hrest]
      | bool b => simp [ErrorsPy.flattenItems, flattenItems, ih rest key hrest]
      | null => simp [ErrorsPy.flattenItems, flattenItems, ih rest key hrest]
      | arr xs => simp [ErrorsPy.flattenItems, flattenItems, ih rest key hrest]

theorem flattenItems_eq (l : List (String × Json)) (key : String) :
    ErrorsPy.flattenItems l key = flattenItems l key :=
  flattenItems_eq_aux (sizeOf l) l key (le_refl _)

/-- Whether a `Json` value is a Python string. -/
def Json.isStr : Json → Bool
  | Json.str _ => true
  | _ => false

/-! ### Claims -/

/-- C1: for the structured body with code 50035, message "Invalid Form
Body" and a `username` error of "too short", `HTTPException.__init__`
sets `text` to the base message, a newline, and the flattened
`In username: too short` line, and sets `code` to 50035. -/
theorem C1_structured_body_text_and_code :
    (HTTPException_init ⟨some 400, none, "Bad Request"⟩
        (some (Json.obj
          [("code", Json.num 50035),
            ("message", Json.str "Invalid Form Body"),
            ("errors", Json.obj
              [("username", Json.obj
                [("_errors",
                  Json.arr [Json.obj [("message", Json.str "too short")]])])])]))).map
        (fun te => (te.code, te.text)) =
      Except.ok (Json.num 50035,
        Json.str "Invalid Form Body\nIn username: too short") := by
  simp [HTTPException_init, extractStatus, computeCodeText, pyLookup, pyTruthy,
    flatten_error_dict, flattenItems, joinMessages, mapME, pyGetMessage, asPyString,
    new_key, pyDict, pyDictInsert, pyStr, pyLen, Except.map]
  rfl

/-- C2: a mapping value carrying the reserved `_errors` key flattens to a
single entry at the current path whose value is the space-join of the
records' `message` fields, with no recursion into the value. -/
theorem C2_errors_key_joins_messages (k key : String) (vf : List (String × Json))
    (xs : List Json) (h1 : pyLookup vf "_errors" = some (Json.arr xs))
    (h2 : ∀ x ∈ xs, wellFormedRecord x = true) :
    flatten_error_dict [(k, Json.obj vf)] key =
      Except.ok [(new_key key k,
        Json.str (String.intercalate " " (xs.map recordMessage)))] :=
  flatten_singleton_errors k key vf xs h1 h2

/-- C2 witness: flattening `{"a": {"_errors": [{"message": "bad"},
{"message": "worse"}]}}` yields `{"a": "bad worse"}`. -/
theorem C2_errors_key_joins_messages_witness :
    pyLookup [("_errors",
        Json.arr [Json.obj [("message", Json.str "bad")],
          Json.obj [("message", Json.str "worse")]])] "_errors" =
      some (Json.arr [Json.obj [("message", Json.str "bad")],
        Json.obj [("message", Json.str "worse")]]) ∧
    (∀ x ∈ [Json.obj [("message", Json.str "bad")],
        Json.obj [("message", Json.str "worse")]], wellFormedRecord x = true) ∧
    flatten_error_dict
        [("a", Json.obj [("_errors",
          Json.arr [Json.obj [("message", Json.str "bad")],
            Json.obj [("message", Json.str "worse")]])])] "" =
      Except.ok [("a", Json.str "bad worse")] := by
  refine ⟨rfl, by decide, ?_⟩
  exact (C2_errors_key_joins_messages "a" ""
    [("_errors", Json.arr [Json.obj [("message", Json.str "bad")],
      Json.obj [("message", Json.str "worse")]])]
    [Json.obj [("message", Json.str "bad")], Json.obj [("message", Json.str "worse")]]
    rfl (by decide)).trans (by rfl)

/-- C3: a nested mapping value without `_errors` is flattened recursively
under the dotted path `new_key` (prefix-dot-k for a non-empty prefix,
else k) and the result is merged; the empty mapping flattens to the
empty mapping. -/
theorem C3_nested_recursion_dotted_path (k key : String) (vf : List (String × Json))
    (h : pyLookup vf "_errors" = none) :
    flatten_error_dict [(k, Json.obj vf)] key =
      flatten_error_dict vf (new_key key k) ∧
    new_key key k = (if key = "" then k else key ++ "." ++ k) ∧
    flatten_error_dict ([] : List (String × Json)) "" = Except.ok [] :=
  ⟨flatten_singleton_recurse k key vf h, rfl,
    by simp [flatten_error_dict, flattenItems, pyDict]⟩

/-- C3 witness: flattening `{"a": {"b": "x"}}` yields `{"a.b": "x"}`. -/
theorem C3_nested_recursion_dotted_path_witness :
    pyLookup [("b", Json.str "x")] "_errors" = none ∧
    flatten_error_dict [("a", Json.obj [("b", Json.str "x")])] "" =
      Except.ok [("a.b", Json.str "x")] := by
  refine ⟨rfl, ?_⟩
  have h := (C3_nested_recursion_dotted_path "a" "" [("b", Json.str "x")] rfl).1
  rw [h]
  simp [flatten_error_dict, flattenItems, new_key, pyDict, pyDictInsert]

/-- C4: a response exposing `status_code=403` and no `status` yields
`status == 403`; but a response exposing `status=403` and no
`status_code` does not fall back — `response.status_code` raises
`AttributeError`, contradicting the claimed two-way fallback. -/
theorem C4_status_code_then_status :
    (HTTPException_init ⟨some 403, none, "Forbidden"⟩ none).map (fun te => te.status) =
      Except.ok 403 ∧
    HTTPException_init ⟨none, some 403, "Forbidden"⟩ none =
      Except.error PyErr.attributeError := by
  constructor
  · simp [HTTPException_init, extractStatus, computeCodeText, pyLen, pyStr, Except.map]
  · simp [HTTPException_init, extractStatus]

/-- C5 counterexample: a dict body whose `errors` value is a truthy
non-mapping makes the translator raise (`'oops'.items()` →
`AttributeError`) instead of degrading to an opaque string. -/
theorem C5_translator_raises_counterexample :
    HTTPException_init ⟨some 400, none, "Bad Request"⟩
        (some (Json.obj [("errors", Json.str "oops")])) =
      Except.error PyErr.attributeError := by
  simp [HTTPException_init, extractStatus, computeCodeText, pyLookup, pyTruthy]

/-- C5 amended: the translator completes normally with `code = 0` and
`text = message or ''` when the message is `None` or a string (given a
response with a truthy `status_code`); malformed dict bodies can raise. -/
theorem C5_translator_safe_on_none_or_string (r : Response) (sc : Int) (s : String)
    (h1 : r.status_code = some sc) (h2 : sc ≠ 0) :
    (HTTPException_init r (some (Json.str s))).map
        (fun te => (te.status, te.code, te.text)) =
      Except.ok (sc, Json.num 0, Json.str s) ∧
    (HTTPException_init r none).map (fun te => (te.status, te.code, te.text)) =
      Except.ok (sc, Json.num 0, Json.str "") := by
  constructor
  · by_cases hs : s = "" <;>
      simp [HTTPException_init, extractStatus, computeCodeText, pyTruthy, pyLen,
        h1, h2, hs, Except.map]
  · simp [HTTPException_init, extractStatus, computeCodeText, pyLen, h1, h2, Except.map]

/-- C5 witness: the amended safety at a concrete response and string. -/
theorem C5_translator_safe_witness :
    (⟨some 400, none, "Bad Request"⟩ : Response).status_code = some 400 ∧
    (400 : Int) ≠ 0 ∧
    (HTTPException_init ⟨some 400, none, "Bad Request"⟩ (some (Json.str "boom"))).map
        (fun te => (te.status, te.code, te.text)) =
      Except.ok (400, Json.num 0, Json.str "boom") :=
  ⟨rfl, by decide,
    (C5_translator_safe_on_none_or_string ⟨some 400, none, "Bad Request"⟩ 400 "boom"
        rfl (by decide)).1⟩

/-- C6: the flattener stores a non-mapping value unchanged — the integer
`3` stays an integer in the result, it is not coerced to the string
`"3"`, contrary to the claim (and to the function's own
`Dict[str, str]` annotation). -/
theorem C6_scalar_value_not_coerced :
    flatten_error_dict [("a", Json.num 3)] "" = Except.ok [("a", Json.num 3)] ∧
    Json.isStr (Json.num 3) = false := by
  constructor
  · simp [flatten_error_dict, flattenItems, new_key, pyDict, pyDictInsert]
  · rfl

/-- C7 counterexample: with two records both lacking `message`, the
entry's value is `' '.join(['', ''])`, a single space — not the empty
string the claim states. -/
theorem C7_two_empty_records_counterexample :
    flatten_error_dict
        [("a", Json.obj [("_errors", Json.arr [Json.obj [], Json.obj []])])] "" =
      Except.ok [("a", Json.str " ")] ∧
    (" " : String).length = 1 := by
  constructor
  · simp [flatten_error_dict, flattenItems, pyLookup, joinMessages, mapME,
      pyGetMessage, asPyString, pyDict, pyDictInsert, new_key]
    rfl
  · rfl

/-- C7 amended: an `_errors` list of n records all lacking `message`
yields an entry (not an omission) whose value is the space-join of n
empty strings — `n - 1` spaces, the empty string for at most one
record. -/
theorem C7_lacking_message_join_of_empties (k key : String) (xs : List Json)
    (h : ∀ x ∈ xs, lacksMessage x = true) :
    flatten_error_dict [(k, Json.obj [("_errors", Json.arr xs)])] key =
      Except.ok [(new_key key k,
        Json.str (String.intercalate " " (xs.map (fun _ => ""))))] := by
  have hwf : ∀ x ∈ xs, wellFormedRecord x = true := by
    intro x hx
    have hlx := h x hx
    cases x with
    | obj xf =>
      cases hL : pyLookup xf "message" with
      | none => simp [wellFormedRecord, hL]
      | some m => simp [lacksMessage, hL] at hlx
    | str s => simp [lacksMessage] at hlx
    | num n => simp [lacksMessage] at hlx
    | bool b => simp [lacksMessage] at hlx
    | null => simp [lacksMessage] at hlx
    | arr l => simp [lacksMessage] at hlx
  have hmap : xs.map recordMessage = xs.map (fun _ => "") := by
    apply List.map_congr_left
    intro x hx
    have hlx := h x hx
    cases x with
    | obj xf =>
      cases hL : pyLookup xf "message" with
      | none => simp [recordMessage, hL]
      | some m => simp [lacksMessage, hL] at hlx
    | str s => simp [lacksMessage] at hlx
    | num n => simp [lacksMessage] at hlx
    | bool b => simp [lacksMessage] at hlx
    | null => simp [lacksMessage] at hlx
    | arr l => simp [lacksMessage] at hlx
  rw [← hmap]
  exact flatten_singleton_errors k key [("_errors", Json.arr xs)] xs rfl hwf

/-- C7 witness: two empty records yield the one-space entry. -/
theorem C7_lacking_message_join_witness :
    (∀ x ∈ [Json.obj ([] : List (String × Json)), Json.obj []],
      lacksMessage x = true) ∧
    flatten_error_dict
        [("a", Json.obj [("_errors", Json.arr [Json.obj [], Json.obj []])])] "" =
      Except.ok [("a", Json.str " ")] := by
  refine ⟨by decide, ?_⟩
  exact (C7_lacking_message_join_of_empties "a" ""
    [Json.obj [], Json.obj []] (by decide)).trans (by rfl)

/-- C8: on a mapping whose values are all scalars, flattening with the
empty prefix returns the input itself, and applying the flattener twice
equals applying it once. -/
theorem C8_idempotent_on_flat (d : List (String × Json))
    (h1 : (d.map Prod.fst).Nodup) (h2 : ∀ p ∈ d, p.2.isObj = false) :
    flatten_error_dict d "" = Except.ok d ∧
    (flatten_error_dict d "").bind (fun r => flatten_error_dict r "") =
      flatten_error_dict d "" := by
  have hfl : flatten_error_dict d "" = Except.ok d := by
    simp [flatten_error_dict, flattenItems_scalars d h2, pyDict_eq_self d h1]
  exact ⟨hfl, by simp [hfl, Except.bind]⟩

/-- C8 witness: a concrete flat mapping is returned unchanged. -/
theorem C8_idempotent_on_flat_witness :
    (([("a", Json.str "x"), ("b", Json.num 3)].map Prod.fst).Nodup) ∧
    (∀ p ∈ [("a", Json.str "x"), ("b", Json.num 3)], p.2.isObj = false) ∧
    flatten_error_dict [("a", Json.str "x"), ("b", Json.num 3)] "" =
      Except.ok [("a", Json.str "x"), ("b", Json.num 3)] := by
  refine ⟨by decide, by decide, ?_⟩
  exact (C8_idempotent_on_flat [("a", Json.str "x"), ("b", Json.num 3)]
    (by decide) (by decide)).1

/-- C9: `RateLimited` is built from `retry_after` alone, is not a
subclass of `HTTPException`, stores no `status`/`code`/`text`
attribute, and its message for `retry_after = 1.5` contains `1.50`. -/
theorem C9_rate_limited_shape :
    isSubclassOf ExcClass.rateLimited ExcClass.httpException = false ∧
    rateLimitedAttrs = ["retry_after"] ∧
    rateLimitedAttrs.contains "status" = false ∧
    rateLimitedAttrs.contains "code" = false ∧
    rateLimitedAttrs.contains "text" = false ∧
    (RateLimited_init ((3 : Rat) / 2)).retry_after = (3 : Rat) / 2 ∧
    (RateLimited_init ((3 : Rat) / 2)).args = "Too many requests. Retry in 1.50" ∧
    (∃ pre post,
      (RateLimited_init ((3 : Rat) / 2)).args = pre ++ "1.50" ++ post) := by
  have h150 : roundHalfEven ((3 : Rat) / 2 * 100) = 150 := by norm_num [roundHalfEven]
  have hfmt : formatFixed2 ((3 : Rat) / 2) = "1.50" := by
    simp only [formatFixed2, h150]
    decide
  refine ⟨by decide, rfl, by decide, by decide, by decide, rfl, ?_, ?_⟩
  · simp [RateLimited_init, hfmt]
  · exact ⟨"Too many requests. Retry in ", "", by simp [RateLimited_init, hfmt]⟩

/-- C10: the flattener in src/errors.py and the flattener in
src/ext/errors/base_errors.py compute the same function on every input
dict and prefix. -/
theorem C10_duplicate_flatteners_agree (d : List (String × Json)) (key : String) :
    ErrorsPy.flatten_error_dict d key = flatten_error_dict d key := by
  unfold ErrorsPy.flatten_error_dict flatten_error_dict
  rw [flattenItems_eq]
